import Mathlib

/-!
Shallow embedding of the hand-eye-test Viam module (Go):
  service.go    — session state, DoCommand dispatcher, detect/pick/status handlers
  move.go       — handleMoveTo, the incremental convergence controller
  pick.go       — executePick, the 9-stage pick sequence, pickResult.toMap
  detect.go     — detectObjects, centroid computation and post-filters
  config.go     — Config fields consumed by the core logic

External collaborators (gripper, arm, camera, motion planner, segmentation)
are modelled as environments supplying the outcome of each external call.
Go float64 values are modelled as real numbers; Go slices are modelled as
`Option (List α)` so that nil and non-nil slices stay distinguishable
(`none` is the nil slice).  Go maps returned to the caller are modelled as
structures with one field per map key; an `Option` field models a key that
may be absent.
-/

namespace HandEye

/-- 3D vector, mirroring r3.Vector (float64 coordinates). -/
structure R3 where
  x : ℝ
  y : ℝ
  z : ℝ

/-- Component-wise difference `a - b`, as written out at each Go call site. -/
def R3.sub (a b : R3) : R3 := ⟨a.x - b.x, a.y - b.y, a.z - b.z⟩

/-- The Go zero value r3.Vector{}. -/
def R3.zero : R3 := ⟨0, 0, 0⟩

noncomputable instance : DecidableEq R3 := Classical.decEq R3

/-- vecNorm from pick.go: math.Sqrt(v.X*v.X + v.Y*v.Y + v.Z*v.Z). -/
noncomputable def vecNorm (v : R3) : ℝ := Real.sqrt (v.x * v.x + v.y * v.y + v.z * v.z)

/-- spatialmath orientation values (OrientationVectorDegrees).  Orientations are
carried through the embedding but never influence the core control flow. -/
structure Orientation where
  ox : ℝ
  oy : ℝ
  oz : ℝ
  theta : ℝ

/-- Default orientation substituted in world-frame mode when the gripper pose
query fails: OrientationVectorDegrees{OX:0, OY:1, OZ:0, Theta:180}. -/
def defaultWorldOrientation : Orientation := ⟨0, 1, 0, 180⟩

/-- Fixed orientation used for camera-frame approach poses:
OrientationVectorDegrees{OZ:1, Theta:0}. -/
def defaultCameraOrientation : Orientation := ⟨0, 0, 1, 0⟩

/-- A pose: a point together with an orientation. -/
structure Pose where
  point : R3
  ori : Orientation

/-- A Go slice: `none` is the nil slice, `some l` a non-nil slice with
elements `l`.  detectObjects and the session state rely on the nil / non-nil
distinction (`objects == nil`). -/
abbrev GoSlice (α : Type) := Option (List α)

/-- Go append on a possibly-nil slice: appending to nil allocates. -/
def goAppend {α : Type} (s : GoSlice α) (a : α) : GoSlice α :=
  match s with
  | none => some [a]
  | some l => some (l ++ [a])

/-- len(s) for a Go slice: len(nil) = 0. -/
def goLen {α : Type} (s : GoSlice α) : ℕ :=
  match s with
  | none => 0
  | some l => l.length

/-- The list of elements of a Go slice (ranging over nil yields nothing). -/
def goList {α : Type} (s : GoSlice α) : List α :=
  match s with
  | none => []
  | some l => l

/-- Indexing a Go list with an int expression: `some` when the index is in
bounds, `none` when the access would panic (index out of range). -/
def goIndex {α : Type} (l : List α) (i : ℤ) : Option α :=
  if 0 ≤ i ∧ i < (l.length : ℤ) then l.get? i.toNat else none

/-- The Config fields consumed by the core logic (config.go / cli.go).  The
segmentation parameters that are merely forwarded to the external
segmentation capability are abstracted into the detection environment; only
the two post-filter thresholds are interpreted by the core. -/
structure Config where
  camera : String
  detectionFrame : String
  approachOffsetMm : ℝ
  graspDepthOffsetMm : ℝ
  liftHeightMm : ℝ
  maxDepthMm : ℝ
  maxPointCount : ℤ

/-- DetectedObject from detect.go: a centroid plus a point count. -/
structure DetectedObject where
  center : R3
  pointCount : ℕ

/-- A segmented cluster: the list of point positions visited by
cloud.Iterate. -/
abbrev Cluster := List R3

/-- computeCenter from detect.go: arithmetic mean of all point positions,
the zero vector for an empty cloud. -/
noncomputable def computeCenter (cloud : Cluster) : R3 :=
  let sum := cloud.foldl (fun acc p => ⟨acc.x + p.x, acc.y + p.y, acc.z + p.z⟩) R3.zero
  let count := cloud.length
  if count = 0 then R3.zero
  else ⟨sum.x / count, sum.y / count, sum.z / count⟩

/-- Outcomes of the external calls made by detectObjects: the segmentation
config validity check and the radius-clustering capability. -/
structure DetectEnv where
  checkValid : Except Unit Unit
  clustering : Except Unit (List Cluster)

/-- Errors surfaced by detectObjects. -/
inductive DetectError
  | invalidConfig
  | segmentationFailed
deriving DecidableEq

/-- detectObjects from detect.go: validate the segmentation config, run
clustering, return nil for zero clusters, else post-filter each cluster by
maximum centroid depth and maximum point count and collect survivors. -/
noncomputable def detectObjects (env : DetectEnv) (cfg : Config) :
    Except DetectError (GoSlice DetectedObject) :=
  match env.checkValid with
  | .error _ => .error .invalidConfig
  | .ok _ =>
    match env.clustering with
    | .error _ => .error .segmentationFailed
    | .ok objects =>
      if objects.length = 0 then .ok none
      else
        .ok (objects.foldl (fun detected obj =>
          let center := computeCenter obj
          if cfg.maxDepthMm > 0 ∧ center.z > cfg.maxDepthMm then detected
          else if cfg.maxPointCount > 0 ∧ (obj.length : ℤ) > cfg.maxPointCount then detected
          else goAppend detected ⟨center, obj.length⟩) none)

/-- The in-flight pickResult struct from pick.go (zero-initialized fields
filled in as the sequence progresses). -/
structure PickResultRec where
  success : Bool
  isHolding : Bool
  detectedPosition : R3
  detectionFrame : String
  objectPositionWorldFrame : R3
  gripperPositionWorldFrame : R3
  approachOffsetMm : R3
  worldFrameOffsetMm : R3
  stepsCompleted : List String

/-- One offset sub-map of the response: components plus the Euclidean total. -/
structure OffsetMap where
  x : ℝ
  y : ℝ
  z : ℝ
  total : ℝ

/-- One position sub-map of the response: coordinates plus a frame name. -/
structure PositionMap where
  xMm : ℝ
  yMm : ℝ
  zMm : ℝ
  frame : String

/-- The map returned by pickResult.toMap, one field per key. -/
structure PickResultMap where
  success : Bool
  isHolding : Bool
  detectedPosition : PositionMap
  objectPositionWorldFrame : PositionMap
  gripperPositionWorldFrame : PositionMap
  approachOffsetMm : OffsetMap
  worldFrameOffsetMm : OffsetMap
  stepsCompleted : List String

/-- pickResult.toMap from pick.go: the totals are vecNorm of the recorded
offset vectors. -/
noncomputable def pickResultToMap (r : PickResultRec) : PickResultMap :=
  { success := r.success
    isHolding := r.isHolding
    detectedPosition :=
      ⟨r.detectedPosition.x, r.detectedPosition.y, r.detectedPosition.z, r.detectionFrame⟩
    objectPositionWorldFrame :=
      ⟨r.objectPositionWorldFrame.x, r.objectPositionWorldFrame.y,
        r.objectPositionWorldFrame.z, "world"⟩
    gripperPositionWorldFrame :=
      ⟨r.gripperPositionWorldFrame.x, r.gripperPositionWorldFrame.y,
        r.gripperPositionWorldFrame.z, "world"⟩
    approachOffsetMm :=
      ⟨r.approachOffsetMm.x, r.approachOffsetMm.y, r.approachOffsetMm.z,
        vecNorm r.approachOffsetMm⟩
    worldFrameOffsetMm :=
      ⟨r.worldFrameOffsetMm.x, r.worldFrameOffsetMm.y, r.worldFrameOffsetMm.z,
        vecNorm r.worldFrameOffsetMm⟩
    stepsCompleted := r.stepsCompleted }

/-- Outcomes of the external calls made by executePick, in program order.
Calls that command a destination take the commanded pose, so an outcome may
depend on it; each field is consulted exactly once per run. -/
structure PickEnv where
  openGripper : Except Unit Unit
  approachPoseQuery : Except Unit Pose
  approachMove : Pose → Except Unit Bool
  redetectEnv : DetectEnv
  armEndPosition1 : Except Unit Pose
  graspMove : Pose → Except Unit Unit
  gripperWorldPose : Except Unit Pose
  cameraWorldTransform : Except Unit (R3 → R3)
  grab : Except Unit Bool
  armEndPosition2 : Except Unit Pose
  liftMove : Pose → Except Unit Unit
  isHolding : Except Unit Bool

/-- The fatal failure modes of executePick (each aborts with an error and no
result). -/
inductive PickError
  | openGripperFailed
  | approachMoveFailed
  | approachNoPath
  | armPositionFailed
  | graspMoveFailed
  | grabFailed
deriving DecidableEq

/-- Step 4 of executePick: re-detect from the approach position (advisory).
On success with at least one object, record
approachOffset = redetected[0].Center - obj.Center; on failure or an empty
detection, leave the result unchanged.  The step name is appended by the
caller unconditionally, as in the source. -/
noncomputable def redetectStep (denv : DetectEnv) (cfg : Config) (obj : DetectedObject)
    (r : PickResultRec) : PickResultRec :=
  match detectObjects denv cfg with
  | .error _ => r
  | .ok redetected =>
    match redetected with
    | some (r0 :: _) => { r with approachOffsetMm := R3.sub r0.center obj.center }
    | _ => r

/-- Step 6 of executePick: world-frame comparison (advisory).  If the
gripper world pose query fails, skip entirely.  Otherwise record the
gripper position; obtain the object world position directly (world-frame
detection) or through the camera world pose; and compute the world-frame
offset only when the recorded object world position is not the zero
vector. -/
noncomputable def worldCompareStep (gwp : Except Unit Pose) (cwt : Except Unit (R3 → R3))
    (detectionFrame : String) (obj : DetectedObject) (r : PickResultRec) : PickResultRec :=
  match gwp with
  | .error _ => r
  | .ok gp =>
    let gripperPos := gp.point
    let r6a := { r with gripperPositionWorldFrame := gripperPos }
    let r6b :=
      if detectionFrame = "world" then { r6a with objectPositionWorldFrame := obj.center }
      else
        match cwt with
        | .error _ => r6a
        | .ok tf => { r6a with objectPositionWorldFrame := tf obj.center }
    if r6b.objectPositionWorldFrame = R3.zero then r6b
    else { r6b with worldFrameOffsetMm := R3.sub gripperPos r6b.objectPositionWorldFrame }

/-- Step 8 of executePick: lift by liftHeightMm via a direct Cartesian move
(advisory).  Neither a failed position query nor a failed move changes the
result; the step name is appended by the caller unconditionally. -/
noncomputable def liftStep (aep : Except Unit Pose) (liftMove : Pose → Except Unit Unit)
    (cfg : Config) (r : PickResultRec) : PickResultRec :=
  match aep with
  | .error _ => r
  | .ok currentPose2 =>
    let liftPoint : R3 :=
      ⟨currentPose2.point.x, currentPose2.point.y, currentPose2.point.z + cfg.liftHeightMm⟩
    match liftMove ⟨liftPoint, currentPose2.ori⟩ with
    | .error _ => r
    | .ok _ => r

/-- Step 9 of executePick: query IsHoldingSomething (advisory); on error
isHolding keeps its zero value false. -/
noncomputable def verifyStep (ish : Except Unit Bool) (r : PickResultRec) : PickResultRec :=
  match ish with
  | .error _ => r
  | .ok b => { r with isHolding := b }

/-- executePick from pick.go: the full pick sequence.  Fatal steps return an
error; advisory failures (re-detection, world-frame comparison, lift, hold
query) are tolerated and the sequence continues.  The camera world pose is
modelled by the rigid transform it applies to a camera-frame point, so that
spatialmath.Compose(cameraPose, NewPoseFromPoint(c)).Point() is the
transform applied to c. -/
noncomputable def executePick (env : PickEnv) (cfg : Config) (obj : DetectedObject) :
    Except PickError PickResultMap :=
  let detectionFrame := if cfg.detectionFrame = "" then cfg.camera else cfg.detectionFrame
  let result0 : PickResultRec :=
    { success := false, isHolding := false
      detectedPosition := obj.center, detectionFrame := detectionFrame
      objectPositionWorldFrame := R3.zero, gripperPositionWorldFrame := R3.zero
      approachOffsetMm := R3.zero, worldFrameOffsetMm := R3.zero
      stepsCompleted := [] }
  -- Step 1: open gripper (fatal)
  match env.openGripper with
  | .error _ => .error .openGripperFailed
  | .ok _ =>
    let result1 := { result0 with stepsCompleted := result0.stepsCompleted ++ ["open_gripper"] }
    -- Step 2: approach pose in the detection frame (world frame: above the
    -- object; camera frame: closer to the camera)
    let approachPoint : R3 :=
      if detectionFrame = "world" then
        ⟨obj.center.x, obj.center.y, obj.center.z + cfg.approachOffsetMm⟩
      else ⟨obj.center.x, obj.center.y, obj.center.z - cfg.approachOffsetMm⟩
    let approachOrientation : Orientation :=
      if detectionFrame = "world" then
        match env.approachPoseQuery with
        | .error _ => defaultWorldOrientation
        | .ok p => p.ori
      else defaultCameraOrientation
    -- Step 3: move to approach via motion planning (fatal)
    match env.approachMove ⟨approachPoint, approachOrientation⟩ with
    | .error _ => .error .approachMoveFailed
    | .ok false => .error .approachNoPath
    | .ok true =>
      let result2 := { result1 with stepsCompleted := result1.stepsCompleted ++ ["approach"] }
      -- Step 4: re-detect for the approach-offset measurement (advisory)
      let result3 := redetectStep env.redetectEnv cfg obj result2
      let result4 := { result3 with stepsCompleted := result3.stepsCompleted ++ ["re_detect"] }
      -- Step 5: direct Cartesian move down to the grasp position (fatal)
      match env.armEndPosition1 with
      | .error _ => .error .armPositionFailed
      | .ok currentPose =>
        let graspDelta := cfg.approachOffsetMm - cfg.graspDepthOffsetMm
        let graspPoint : R3 :=
          ⟨currentPose.point.x, currentPose.point.y, currentPose.point.z - graspDelta⟩
        match env.graspMove ⟨graspPoint, currentPose.ori⟩ with
        | .error _ => .error .graspMoveFailed
        | .ok _ =>
          let result5 :=
            { result4 with stepsCompleted := result4.stepsCompleted ++ ["grasp_position"] }
          -- Step 6: world-frame comparison (advisory)
          let result6 :=
            worldCompareStep env.gripperWorldPose env.cameraWorldTransform detectionFrame
              obj result5
          -- Step 7: grab (fatal); the grabbed signal is only logged
          match env.grab with
          | .error _ => .error .grabFailed
          | .ok _grabbed =>
            let result7 := { result6 with stepsCompleted := result6.stepsCompleted ++ ["grab"] }
            -- Step 8: lift via direct Cartesian move (advisory)
            let result8 := liftStep env.armEndPosition2 env.liftMove cfg result7
            let result9 := { result8 with stepsCompleted := result8.stepsCompleted ++ ["lift"] }
            -- Step 9: verify hold (advisory query; isHolding stays false on error)
            let result10 := verifyStep env.isHolding result9
            let result11 :=
              { result10 with stepsCompleted := result10.stepsCompleted ++ ["verify"] }
            let result12 := { result11 with success := result11.isHolding }
            .ok (pickResultToMap result12)

/-- The mutex-protected session state of the handEyeTest service
(service.go).  The mutex itself is not modelled: the embedding is of one
sequential command execution, and each handler returns the state as it
stands when the handler finishes (or panics). -/
structure SessionState where
  lastDetection : GoSlice DetectedObject
  currentStatus : String
  lastResult : Option PickResultMap

/-- The state built by NewHandEyeTest: status idle, nil lastDetection, nil
lastResult. -/
def initialState : SessionState := ⟨none, "idle", none⟩

/-- The typed errors DoCommand and its handlers can return. -/
inductive CommandError
  | missingCommand
  | unknownCommand (cmd : String)
  | detectionFailed (e : DetectError)
  | objectIndexOutOfRange (idx : ℤ) (count : ℕ)
  | noPreviousDetection
  | pickFailed (e : PickError)

/-- Result of a handler: a value, a returned error, or a Go runtime panic
(slice index out of range). -/
inductive GoResult (α : Type)
  | ok (val : α)
  | err (e : CommandError)
  | panic

/-- One entry of the detect response's objects list. -/
structure DetectResponseEntry where
  index : ℕ
  pointCount : ℕ
  centerXMm : ℝ
  centerYMm : ℝ
  centerZMm : ℝ

/-- The detect response map: objects plus count. -/
structure DetectResponse where
  objects : List DetectResponseEntry
  count : ℕ

/-- handleDetect from service.go: run the detection pipeline, record
lastDetection on success (leave it unchanged on failure), return to idle
either way, and build the response list. -/
noncomputable def handleDetect (st : SessionState) (denv : DetectEnv) (cfg : Config) :
    GoResult DetectResponse × SessionState :=
  match detectObjects denv cfg with
  | .error e => (.err (.detectionFailed e), { st with currentStatus := "idle" })
  | .ok objects =>
    let st1 := { st with lastDetection := objects, currentStatus := "idle" }
    let objList := (goList objects).enum.map (fun p =>
      { index := p.1, pointCount := p.2.pointCount
        centerXMm := p.2.center.x, centerYMm := p.2.center.y, centerZMm := p.2.center.z })
    (.ok { objects := objList, count := goLen objects }, st1)

/-- handlePick from service.go: always re-detect, record lastDetection,
validate only `objectIndex >= len(objects)`, then run the pick orchestrator
on objects[objectIndex] and record its result (nil on fatal failure) as
lastResult.  A negative index passes the range check and the slice access
panics. -/
noncomputable def handlePick (st : SessionState) (denv : DetectEnv) (penv : PickEnv)
    (cfg : Config) (objectIndex : ℤ) : GoResult PickResultMap × SessionState :=
  match detectObjects denv cfg with
  | .error e => (.err (.detectionFailed e), { st with currentStatus := "idle" })
  | .ok objects =>
    if objectIndex ≥ (goLen objects : ℤ) then
      (.err (.objectIndexOutOfRange objectIndex (goLen objects)),
        { st with lastDetection := objects, currentStatus := "idle" })
    else
      match goIndex (goList objects) objectIndex with
      | none => (.panic, { st with lastDetection := objects, currentStatus := "detecting" })
      | some obj =>
        match executePick penv cfg obj with
        | .ok m =>
          (.ok m,
            { st with lastDetection := objects, currentStatus := "idle", lastResult := some m })
        | .error e =>
          (.err (.pickFailed e),
            { st with lastDetection := objects, currentStatus := "idle", lastResult := none })

/-- handlePickDetected from service.go: use the recorded lastDetection
(fails if it is nil), validate only the upper bound of the index, then run
the pick orchestrator and record its result as lastResult. -/
noncomputable def handlePickDetected (st : SessionState) (penv : PickEnv)
    (cfg : Config) (objectIndex : ℤ) : GoResult PickResultMap × SessionState :=
  match st.lastDetection with
  | none => (.err .noPreviousDetection, st)
  | some objects =>
    if objectIndex ≥ (objects.length : ℤ) then
      (.err (.objectIndexOutOfRange objectIndex objects.length), st)
    else
      match goIndex objects objectIndex with
      | none => (.panic, st)
      | some obj =>
        match executePick penv cfg obj with
        | .ok m => (.ok m, { st with currentStatus := "idle", lastResult := some m })
        | .error e =>
          (.err (.pickFailed e), { st with currentStatus := "idle", lastResult := none })

/-- The status response map: last_result and detected_objects are present
only when the corresponding state is non-nil. -/
structure StatusResponse where
  status : String
  lastResult : Option PickResultMap
  detectedObjects : Option ℕ

/-- handleStatus from service.go: snapshot of the session state; the
last_result and detected_objects keys are omitted while lastResult and
lastDetection are nil. -/
def handleStatus (st : SessionState) : StatusResponse :=
  { status := st.currentStatus
    lastResult := st.lastResult
    detectedObjects :=
      match st.lastDetection with
      | none => none
      | some l => some l.length }

/-- A value stored in a DoCommand map (the subset of interface{} the
dispatcher inspects). -/
inductive GoValue
  | str (s : String)
  | num (v : ℝ)

/-- The command map: association list mirroring map[string]interface{}. -/
abbrev CommandMap := List (String × GoValue)

/-- Map lookup. -/
def cmdLookup (m : CommandMap) (k : String) : Option GoValue :=
  (m.find? (fun p => p.1 = k)).map (fun p => p.2)

/-- Go conversion int(x) of a float64: truncation toward zero. -/
noncomputable def goInt (x : ℝ) : ℤ := if x < 0 then ⌈x⌉ else ⌊x⌋

/-- The structured response of DoCommand: one variant per handler. -/
inductive Response
  | detectResp (r : DetectResponse)
  | pickResp (m : PickResultMap)
  | statusResp (r : StatusResponse)

/-- Map over the ok value of a GoResult. -/
def GoResult.mapVal {α β : Type} (f : α → β) : GoResult α → GoResult β
  | .ok a => .ok (f a)
  | .err e => .err e
  | .panic => .panic

/-- The environments DoCommand hands to its handlers. -/
structure DoCommandEnv where
  detectEnv : DetectEnv
  pickEnv : PickEnv

/-- DoCommand from service.go: extract cmd["command"] as a string (error if
missing or not a string), then switch on "detect" / "pick" /
"pick_detected" / "status"; for the pick commands read cmd["object_index"]
as a float64 defaulting to 0.  Any other command string — including
"move_to", which the CLI sends and handleMoveTo implements — falls through
to the unknown-command error. -/
noncomputable def doCommand (st : SessionState) (env : DoCommandEnv) (cfg : Config)
    (cmd : CommandMap) : GoResult Response × SessionState :=
  match cmdLookup cmd "command" with
  | some (.str command) =>
    if command = "detect" then
      let r := handleDetect st env.detectEnv cfg
      (r.1.mapVal .detectResp, r.2)
    else if command = "pick" then
      let objectIndex : ℤ :=
        match cmdLookup cmd "object_index" with
        | some (.num v) => goInt v
        | _ => 0
      let r := handlePick st env.detectEnv env.pickEnv cfg objectIndex
      (r.1.mapVal .pickResp, r.2)
    else if command = "pick_detected" then
      let objectIndex : ℤ :=
        match cmdLookup cmd "object_index" with
        | some (.num v) => goInt v
        | _ => 0
      let r := handlePickDetected st env.pickEnv cfg objectIndex
      (r.1.mapVal .pickResp, r.2)
    else if command = "status" then
      (.ok (.statusResp (handleStatus st)), st)
    else (.err (.unknownCommand command), st)
  | _ => (.err .missingCommand, st)

/-- The response map of a successful move_to run. -/
structure MoveResponse where
  success : Bool
  steps : ℕ
  finalPosition : R3
  target : R3

/-- The failure modes of handleMoveTo, each remembering the step counter at
which it occurred. -/
inductive MoveError
  | poseQueryFailed (step : ℕ)
  | moveFailed (step : ℕ)
  | noPath (step : ℕ)
  | exhausted

/-- The external world as seen by the convergence loop: a pose query (does
not change the world) and a planned move to a commanded destination, which
may fail, report no path, or succeed and leave the world in a new state. -/
structure MoveEnv (σ : Type) where
  getPose : σ → Except Unit Pose
  move : σ → Pose → Except Unit (Bool × σ)

/-- The iteration cap of the convergence loop (move.go: maxSteps = 200). -/
def maxSteps : ℕ := 200

/-- The loop body of handleMoveTo from move.go, with the remaining
iteration budget as fuel (fuel = maxSteps - steps, so fuel 0 is the
loop-exhausted exit).  Each iteration queries the gripper's world pose,
succeeds when the distance to target is at most 1mm (re-querying the pose
for final_position, which falls back to the zero vector if that query
errors), otherwise steps to the target itself when within stepSize and
else stepSize along the unit direction toward the target, preserving the
current orientation.  The final world state is returned alongside. -/
noncomputable def moveToAux {σ : Type} (env : MoveEnv σ) (target : R3) (stepSize : ℝ) :
    ℕ → ℕ → σ → (Except MoveError MoveResponse) × σ
  | 0, _steps, s => (.error .exhausted, s)
  | fuel + 1, steps, s =>
    match env.getPose s with
    | .error _ => (.error (.poseQueryFailed steps), s)
    | .ok gripperPose =>
      let currentPos := gripperPose.point
      let currentOri := gripperPose.ori
      let diff := R3.sub target currentPos
      let dist := vecNorm diff
      if dist ≤ 1 then
        let finalPos :=
          match env.getPose s with
          | .error _ => R3.zero
          | .ok p => p.point
        (.ok { success := true, steps := steps, finalPosition := finalPos, target := target }, s)
      else
        let nextPoint : R3 :=
          if dist ≤ stepSize then target
          else
            ⟨currentPos.x + diff.x / dist * stepSize,
              currentPos.y + diff.y / dist * stepSize,
              currentPos.z + diff.z / dist * stepSize⟩
        match env.move s ⟨nextPoint, currentOri⟩ with
        | .error _ => (.error (.moveFailed steps), s)
        | .ok (false, s1) => (.error (.noPath steps), s1)
        | .ok (true, s1) => moveToAux env target stepSize fuel (steps + 1) s1

/-- handleMoveTo from move.go: run the convergence loop from step 0 with
the full iteration budget. -/
noncomputable def handleMoveTo {σ : Type} (env : MoveEnv σ) (target : R3) (stepSize : ℝ)
    (s : σ) : (Except MoveError MoveResponse) × σ :=
  moveToAux env target stepSize maxSteps 0 s

/-- The exact-landing world for the convergence controller: the state is
the gripper position, pose queries report it faithfully, and every planned
move succeeds and lands exactly on the commanded waypoint. -/
noncomputable def perfectEnv : MoveEnv R3 :=
  { getPose := fun c => .ok ⟨c, defaultCameraOrientation⟩
    move := fun _ p => .ok (true, p.point) }

/-- A world that counts issued moves: the state is the number of moves so
far, the pose reported before the k-th move is f k, and every move succeeds.
Used to show the loop issues exactly one move per iteration. -/
def countingEnv (f : ℕ → Pose) : MoveEnv ℕ :=
  { getPose := fun k => .ok (f k)
    move := fun k _ => .ok (true, k + 1) }

/-! Concrete fixtures used by witnesses and counterexamples. -/

/-- The seven step names the pick sequence appends, in program order. -/
def pickStepNames : List String :=
  ["open_gripper", "approach", "re_detect", "grasp_position", "grab", "lift", "verify"]

/-- A pose fixture used wherever a successful pose query needs a value. -/
noncomputable def poseHigh : Pose := ⟨⟨0, 0, 200⟩, defaultCameraOrientation⟩

/-- Detection environment whose clustering call fails. -/
def denvFailing : DetectEnv := ⟨.ok (), .error ()⟩

/-- Detection environment returning zero clusters. -/
def denvZero : DetectEnv := ⟨.ok (), .ok []⟩

/-- Detection environment returning one single-point cluster at (1,2,3). -/
noncomputable def denvOne : DetectEnv := ⟨.ok (), .ok [[⟨1, 2, 3⟩]]⟩

/-- Detection environment returning one single-point cluster at (2,4,6),
used as the re-detection outcome at the approach position. -/
noncomputable def denvRedetect : DetectEnv := ⟨.ok (), .ok [[⟨2, 4, 6⟩]]⟩

/-- A config detecting in the world frame, with the default offsets and
both post-filters disabled. -/
noncomputable def cfgW : Config :=
  { camera := "wrist-cam", detectionFrame := "world", approachOffsetMm := 100
    graspDepthOffsetMm := 0, liftHeightMm := 50, maxDepthMm := 0, maxPointCount := 0 }

/-- A config detecting in the camera frame (empty detectionFrame falls back
to the camera name). -/
noncomputable def cfgC : Config :=
  { camera := "wrist-cam", detectionFrame := "", approachOffsetMm := 100
    graspDepthOffsetMm := 0, liftHeightMm := 50, maxDepthMm := 0, maxPointCount := 0 }

/-- An object detected exactly at the origin of the detection frame. -/
noncomputable def objZero : DetectedObject := ⟨R3.zero, 342⟩

/-- An object detected at (1,2,3). -/
noncomputable def obj123 : DetectedObject := ⟨⟨1, 2, 3⟩, 1⟩

/-- The object the re-detection fixture reports, at (2,4,6). -/
noncomputable def objRedetected : DetectedObject := ⟨⟨2, 4, 6⟩, 1⟩

/-- Pick environment in which every fatal call succeeds, re-detection
fails, the gripper world pose is (1,2,2), the grab signal and the hold
check are true. -/
noncomputable def envA : PickEnv :=
  { openGripper := .ok ()
    approachPoseQuery := .ok poseHigh
    approachMove := fun _ => .ok true
    redetectEnv := denvFailing
    armEndPosition1 := .ok poseHigh
    graspMove := fun _ => .ok ()
    gripperWorldPose := .ok ⟨⟨1, 2, 2⟩, defaultCameraOrientation⟩
    cameraWorldTransform := .ok id
    grab := .ok true
    armEndPosition2 := .ok poseHigh
    liftMove := fun _ => .ok ()
    isHolding := .ok true }

/-- Pick environment for a camera-frame run: re-detection sees one object
at (2,4,6), the camera world pose shifts x by 10, the gripper ends at
(20,30,40), and every fatal call succeeds. -/
noncomputable def envB : PickEnv :=
  { openGripper := .ok ()
    approachPoseQuery := .ok poseHigh
    approachMove := fun _ => .ok true
    redetectEnv := denvRedetect
    armEndPosition1 := .ok poseHigh
    graspMove := fun _ => .ok ()
    gripperWorldPose := .ok ⟨⟨20, 30, 40⟩, defaultCameraOrientation⟩
    cameraWorldTransform := .ok (fun p => ⟨p.x + 10, p.y, p.z⟩)
    grab := .ok true
    armEndPosition2 := .ok poseHigh
    liftMove := fun _ => .ok ()
    isHolding := .ok true }

/-- Pick environment whose very first fatal call (open gripper) fails. -/
noncomputable def envFail : PickEnv := { envA with openGripper := .error () }

/-- The result map produced by running envA against cfgW on objZero. -/
noncomputable def mA : PickResultMap :=
  { success := true, isHolding := true
    detectedPosition := ⟨0, 0, 0, "world"⟩
    objectPositionWorldFrame := ⟨0, 0, 0, "world"⟩
    gripperPositionWorldFrame := ⟨1, 2, 2, "world"⟩
    approachOffsetMm := ⟨0, 0, 0, 0⟩
    worldFrameOffsetMm := ⟨0, 0, 0, 0⟩
    stepsCompleted := pickStepNames }

/-- The result map produced by running envB against cfgC on obj123. -/
noncomputable def mB : PickResultMap :=
  { success := true, isHolding := true
    detectedPosition := ⟨1, 2, 3, "wrist-cam"⟩
    objectPositionWorldFrame := ⟨11, 2, 3, "world"⟩
    gripperPositionWorldFrame := ⟨20, 30, 40, "world"⟩
    approachOffsetMm := ⟨1, 2, 3, Real.sqrt 14⟩
    worldFrameOffsetMm := ⟨9, 28, 37, Real.sqrt 2234⟩
    stepsCompleted := pickStepNames }

/-- A pose sequence for a gripper that never gets closer than 95mm to the
target (100,0,0): it reports (5,0,0) before every move. -/
noncomputable def stuckPose : ℕ → Pose := fun _ => ⟨⟨5, 0, 0⟩, defaultCameraOrientation⟩

/-- Session state holding a previously recorded pick result. -/
noncomputable def stPrev : SessionState := ⟨none, "idle", some mA⟩

/-- Session state holding a previous detection and a previous pick result. -/
noncomputable def stPrevDet : SessionState := ⟨some [obj123], "idle", some mA⟩

/-! Helper lemmas: geometry. -/

theorem vecNorm_nonneg (v : R3) : 0 ≤ vecNorm v := Real.sqrt_nonneg _

@[simp] theorem vecNorm_zero : vecNorm R3.zero = 0 := by
  simp [vecNorm, R3.zero]

@[simp] theorem vecNorm_sub_self (t : R3) : vecNorm (R3.sub t t) = 0 := by
  simp [vecNorm, R3.sub]

theorem vecNorm_axis (a : ℝ) (h : 0 ≤ a) : vecNorm ⟨a, 0, 0⟩ = a := by
  simp only [vecNorm, mul_zero, add_zero]
  exact Real.sqrt_mul_self h

theorem vecNorm_scale (x y z a : ℝ) :
    vecNorm ⟨x * a, y * a, z * a⟩ = vecNorm ⟨x, y, z⟩ * |a| := by
  simp only [vecNorm]
  have h : x * a * (x * a) + y * a * (y * a) + z * a * (z * a)
      = (x * x + y * y + z * z) * (a * a) := by ring
  have hnn : (0 : ℝ) ≤ x * x + y * y + z * z := by
    nlinarith [mul_self_nonneg x, mul_self_nonneg y, mul_self_nonneg z]
  rw [h, Real.sqrt_mul hnn, Real.sqrt_mul_self_eq_abs]

/-- Moving from c by S along the unit direction toward t, when the distance
d to t exceeds S, lands at distance exactly d - S from t. -/
theorem vecNorm_after_step (t c : R3) (S : ℝ) (hS : 0 < S)
    (hd : S < vecNorm (R3.sub t c)) :
    vecNorm (R3.sub t
      ⟨c.x + (R3.sub t c).x / vecNorm (R3.sub t c) * S,
        c.y + (R3.sub t c).y / vecNorm (R3.sub t c) * S,
        c.z + (R3.sub t c).z / vecNorm (R3.sub t c) * S⟩)
      = vecNorm (R3.sub t c) - S := by
  set d := vecNorm (R3.sub t c) with hdDef
  have hd0 : 0 < d := lt_trans hS hd
  have hsub : R3.sub t
      ⟨c.x + (R3.sub t c).x / d * S, c.y + (R3.sub t c).y / d * S,
        c.z + (R3.sub t c).z / d * S⟩
      = ⟨(t.x - c.x) * ((d - S) / d), (t.y - c.y) * ((d - S) / d),
          (t.z - c.z) * ((d - S) / d)⟩ := by
    simp only [R3.sub]
    congr 1 <;> field_simp <;> ring
  rw [hsub, vecNorm_scale]
  have habs : |(d - S) / d| = (d - S) / d :=
    abs_of_nonneg (div_nonneg (by linarith) (le_of_lt hd0))
  rw [habs]
  have hnorm : vecNorm ⟨t.x - c.x, t.y - c.y, t.z - c.z⟩ = d := by
    rw [hdDef]
    rfl
  rw [hnorm]
  field_simp

/-! Helper lemmas: Go slices and indexing. -/

theorem goLen_eq_goList_length {α : Type} (s : GoSlice α) : goLen s = (goList s).length := by
  cases s <;> rfl

theorem goIndex_some_bounds {α : Type} {l : List α} {i : ℤ} {a : α}
    (h : goIndex l i = some a) : 0 ≤ i ∧ i < (l.length : ℤ) := by
  by_cases hc : 0 ≤ i ∧ i < (l.length : ℤ)
  · exact hc
  · simp [goIndex, hc] at h

theorem goIndex_neg {α : Type} (l : List α) {i : ℤ} (h : i < 0) : goIndex l i = none := by
  have : ¬(0 ≤ i ∧ i < (l.length : ℤ)) := by omega
  simp [goIndex, this]

/-- goAppend never yields nil, and keeps the head of a non-empty slice. -/
theorem goAppend_shape {α : Type} (s : GoSlice α) (a : α) :
    (s = none → goAppend s a = some [a]) ∧
    (∀ b t, s = some (b :: t) → goAppend s a = some (b :: (t ++ [a]))) := by
  cases s with
  | none => simp [goAppend]
  | some l => cases l <;> simp [goAppend]

/-- The accumulator of the detectObjects post-filter fold is nil or a
non-empty slice. -/
theorem detectFold_shape (cfg : Config) (l : List Cluster) :
    ∀ acc : GoSlice DetectedObject,
      (acc = none ∨ ∃ b t, acc = some (b :: t)) →
      (l.foldl (fun detected obj =>
          let center := computeCenter obj
          if cfg.maxDepthMm > 0 ∧ center.z > cfg.maxDepthMm then detected
          else if cfg.maxPointCount > 0 ∧ (obj.length : ℤ) > cfg.maxPointCount then detected
          else goAppend detected ⟨center, obj.length⟩) acc = none ∨
        ∃ b t, l.foldl (fun detected obj =>
          let center := computeCenter obj
          if cfg.maxDepthMm > 0 ∧ center.z > cfg.maxDepthMm then detected
          else if cfg.maxPointCount > 0 ∧ (obj.length : ℤ) > cfg.maxPointCount then detected
          else goAppend detected ⟨center, obj.length⟩) acc = some (b :: t)) := by
  induction l with
  | nil => intro acc h; simpa using h
  | cons c rest ih =>
    intro acc h
    simp only [List.foldl_cons]
    apply ih
    by_cases h1 : cfg.maxDepthMm > 0 ∧ (computeCenter c).z > cfg.maxDepthMm
    · simpa [h1] using h
    · by_cases h2 : cfg.maxPointCount > 0 ∧ (c.length : ℤ) > cfg.maxPointCount
      · simpa [h1, h2] using h
      · rcases h with h | ⟨b, t, h⟩
        · subst h
          right
          refine ⟨⟨computeCenter c, c.length⟩, [], ?_⟩
          simp [h1, h2, goAppend]
        · subst h
          right
          refine ⟨b, t ++ [⟨computeCenter c, c.length⟩], ?_⟩
          simp [h1, h2, goAppend]

/-- detectObjects never returns a non-nil empty slice: the empty outcome is
always the nil slice. -/
theorem detectObjects_ok_not_some_nil (denv : DetectEnv) (cfg : Config) :
    detectObjects denv cfg ≠ .ok (some []) := by
  intro h
  unfold detectObjects at h
  rcases hcv : denv.checkValid with u | u <;> rw [hcv] at h
  · exact Except.noConfusion h
  · rcases hc : denv.clustering with u2 | objects <;> rw [hc] at h
    · exact Except.noConfusion h
    · simp only at h
      by_cases hz : objects.length = 0
      · rw [if_pos hz] at h
        simp at h
      · rw [if_neg hz] at h
        rw [Except.ok.injEq] at h
        rcases detectFold_shape cfg objects none (Or.inl rfl) with hnone | ⟨b, t, hsome⟩
        · rw [h] at hnone
          exact Option.noConfusion hnone
        · rw [h] at hsome
          simp at hsome

/-! Helper lemmas: the pick step functions. -/

@[simp] theorem liftStep_self (aep : Except Unit Pose) (lmv : Pose → Except Unit Unit)
    (cfg : Config) (r : PickResultRec) : liftStep aep lmv cfg r = r := by
  unfold liftStep
  split
  · rfl
  · dsimp only
    split <;> rfl

@[simp] theorem verifyStep_steps (i : Except Unit Bool) (r : PickResultRec) :
    (verifyStep i r).stepsCompleted = r.stepsCompleted := by
  unfold verifyStep
  split <;> rfl

@[simp] theorem verifyStep_approach (i : Except Unit Bool) (r : PickResultRec) :
    (verifyStep i r).approachOffsetMm = r.approachOffsetMm := by
  unfold verifyStep
  split <;> rfl

@[simp] theorem verifyStep_object (i : Except Unit Bool) (r : PickResultRec) :
    (verifyStep i r).objectPositionWorldFrame = r.objectPositionWorldFrame := by
  unfold verifyStep
  split <;> rfl

@[simp] theorem verifyStep_gripper (i : Except Unit Bool) (r : PickResultRec) :
    (verifyStep i r).gripperPositionWorldFrame = r.gripperPositionWorldFrame := by
  unfold verifyStep
  split <;> rfl

@[simp] theorem verifyStep_world (i : Except Unit Bool) (r : PickResultRec) :
    (verifyStep i r).worldFrameOffsetMm = r.worldFrameOffsetMm := by
  unfold verifyStep
  split <;> rfl

theorem verifyStep_ok (b : Bool) (r : PickResultRec) :
    verifyStep (.ok b) r = { r with isHolding := b } := rfl

@[simp] theorem redetectStep_steps (d : DetectEnv) (cfg : Config) (obj : DetectedObject)
    (r : PickResultRec) : (redetectStep d cfg obj r).stepsCompleted = r.stepsCompleted := by
  unfold redetectStep
  split
  · rfl
  · split <;> rfl

@[simp] theorem redetectStep_object (d : DetectEnv) (cfg : Config) (obj : DetectedObject)
    (r : PickResultRec) :
    (redetectStep d cfg obj r).objectPositionWorldFrame = r.objectPositionWorldFrame := by
  unfold redetectStep
  split
  · rfl
  · split <;> rfl

@[simp] theorem redetectStep_gripper (d : DetectEnv) (cfg : Config) (obj : DetectedObject)
    (r : PickResultRec) :
    (redetectStep d cfg obj r).gripperPositionWorldFrame = r.gripperPositionWorldFrame := by
  unfold redetectStep
  split
  · rfl
  · split <;> rfl

@[simp] theorem redetectStep_world (d : DetectEnv) (cfg : Config) (obj : DetectedObject)
    (r : PickResultRec) :
    (redetectStep d cfg obj r).worldFrameOffsetMm = r.worldFrameOffsetMm := by
  unfold redetectStep
  split
  · rfl
  · split <;> rfl

@[simp] theorem redetectStep_isHolding (d : DetectEnv) (cfg : Config) (obj : DetectedObject)
    (r : PickResultRec) : (redetectStep d cfg obj r).isHolding = r.isHolding := by
  unfold redetectStep
  split
  · rfl
  · split <;> rfl

theorem redetectStep_of_redetected (d : DetectEnv) (cfg : Config) (obj : DetectedObject)
    (r : PickResultRec) (r0 : DetectedObject) (rest : List DetectedObject)
    (hd : detectObjects d cfg = .ok (some (r0 :: rest))) :
    redetectStep d cfg obj r = { r with approachOffsetMm := R3.sub r0.center obj.center } := by
  unfold redetectStep
  rw [hd]

@[simp] theorem worldCompareStep_steps (gwp : Except Unit Pose) (cwt : Except Unit (R3 → R3))
    (frame : String) (obj : DetectedObject) (r : PickResultRec) :
    (worldCompareStep gwp cwt frame obj r).stepsCompleted = r.stepsCompleted := by
  unfold worldCompareStep
  split
  · rfl
  · dsimp only
    repeat' split
    all_goals rfl

@[simp] theorem worldCompareStep_approach (gwp : Except Unit Pose)
    (cwt : Except Unit (R3 → R3)) (frame : String) (obj : DetectedObject)
    (r : PickResultRec) :
    (worldCompareStep gwp cwt frame obj r).approachOffsetMm = r.approachOffsetMm := by
  unfold worldCompareStep
  split
  · rfl
  · dsimp only
    repeat' split
    all_goals rfl

@[simp] theorem worldCompareStep_isHolding (gwp : Except Unit Pose)
    (cwt : Except Unit (R3 → R3)) (frame : String) (obj : DetectedObject)
    (r : PickResultRec) :
    (worldCompareStep gwp cwt frame obj r).isHolding = r.isHolding := by
  unfold worldCompareStep
  split
  · rfl
  · dsimp only
    repeat' split
    all_goals rfl

/-- The invariant worldCompareStep guarantees: whenever the recorded object
world position ends up non-zero, the recorded world-frame offset is the
component-wise difference between the recorded gripper and object world
positions. -/
theorem worldCompareStep_sound (gwp : Except Unit Pose) (cwt : Except Unit (R3 → R3))
    (frame : String) (obj : DetectedObject) (r : PickResultRec)
    (hz : r.objectPositionWorldFrame = R3.zero) :
    (worldCompareStep gwp cwt frame obj r).objectPositionWorldFrame ≠ R3.zero →
      (worldCompareStep gwp cwt frame obj r).worldFrameOffsetMm
        = R3.sub (worldCompareStep gwp cwt frame obj r).gripperPositionWorldFrame
            (worldCompareStep gwp cwt frame obj r).objectPositionWorldFrame := by
  rcases gwp with u | gp
  · intro hne
    exact absurd hz hne
  · by_cases hf : frame = "world"
    · unfold worldCompareStep
      dsimp only
      rw [if_pos hf]
      dsimp only
      by_cases h0 : obj.center = R3.zero
      · rw [if_pos h0]
        intro hne
        exact absurd h0 hne
      · rw [if_neg h0]
        intro hne
        rfl
    · rcases cwt with u | tf
      · unfold worldCompareStep
        dsimp only
        rw [if_neg hf]
        dsimp only
        rw [if_pos hz]
        intro hne
        exact absurd hz hne
      · unfold worldCompareStep
        dsimp only
        rw [if_neg hf]
        dsimp only
        by_cases h0 : tf obj.center = R3.zero
        · rw [if_pos h0]
          intro hne
          exact absurd h0 hne
        · rw [if_neg h0]
          intro hne
          rfl

/-- Component-wise corollary of worldCompareStep_sound. -/
theorem worldCompareStep_sound_comp (gwp : Except Unit Pose) (cwt : Except Unit (R3 → R3))
    (frame : String) (obj : DetectedObject) (r : PickResultRec)
    (hz : r.objectPositionWorldFrame = R3.zero)
    (hnz : (worldCompareStep gwp cwt frame obj r).objectPositionWorldFrame.x ≠ 0 ∨
        (worldCompareStep gwp cwt frame obj r).objectPositionWorldFrame.y ≠ 0 ∨
        (worldCompareStep gwp cwt frame obj r).objectPositionWorldFrame.z ≠ 0) :
    (worldCompareStep gwp cwt frame obj r).worldFrameOffsetMm.x
        = (worldCompareStep gwp cwt frame obj r).gripperPositionWorldFrame.x
          - (worldCompareStep gwp cwt frame obj r).objectPositionWorldFrame.x ∧
      (worldCompareStep gwp cwt frame obj r).worldFrameOffsetMm.y
        = (worldCompareStep gwp cwt frame obj r).gripperPositionWorldFrame.y
          - (worldCompareStep gwp cwt frame obj r).objectPositionWorldFrame.y ∧
      (worldCompareStep gwp cwt frame obj r).worldFrameOffsetMm.z
        = (worldCompareStep gwp cwt frame obj r).gripperPositionWorldFrame.z
          - (worldCompareStep gwp cwt frame obj r).objectPositionWorldFrame.z := by
  have hne : (worldCompareStep gwp cwt frame obj r).objectPositionWorldFrame ≠ R3.zero := by
    intro he
    rcases hnz with h | h | h <;> exact h (by rw [he]; rfl)
  have hv := worldCompareStep_sound gwp cwt frame obj r hz hne
  refine ⟨?_, ?_, ?_⟩ <;> rw [hv] <;> rfl

/-- Every successful executePick run (under any environment) records the
seven step names in fixed order, sets success from the hold check, computes
the offset totals as Euclidean norms, records the approach offset as the
component-wise difference when re-detection succeeded non-empty, and
records the world-frame offset as the component-wise difference whenever
the recorded object world position is non-zero. -/
theorem executePick_ok_inv (env : PickEnv) (cfg : Config) (obj : DetectedObject)
    (m : PickResultMap) (hok : executePick env cfg obj = .ok m) :
    m.stepsCompleted = pickStepNames ∧
    m.success = m.isHolding ∧
    m.approachOffsetMm.total = Real.sqrt (m.approachOffsetMm.x ^ 2
      + m.approachOffsetMm.y ^ 2 + m.approachOffsetMm.z ^ 2) ∧
    m.worldFrameOffsetMm.total = Real.sqrt (m.worldFrameOffsetMm.x ^ 2
      + m.worldFrameOffsetMm.y ^ 2 + m.worldFrameOffsetMm.z ^ 2) ∧
    (∀ r0 rest, detectObjects env.redetectEnv cfg = .ok (some (r0 :: rest)) →
      m.approachOffsetMm.x = r0.center.x - obj.center.x ∧
      m.approachOffsetMm.y = r0.center.y - obj.center.y ∧
      m.approachOffsetMm.z = r0.center.z - obj.center.z) ∧
    ((m.objectPositionWorldFrame.xMm ≠ 0 ∨ m.objectPositionWorldFrame.yMm ≠ 0 ∨
        m.objectPositionWorldFrame.zMm ≠ 0) →
      m.worldFrameOffsetMm.x
          = m.gripperPositionWorldFrame.xMm - m.objectPositionWorldFrame.xMm ∧
        m.worldFrameOffsetMm.y
          = m.gripperPositionWorldFrame.yMm - m.objectPositionWorldFrame.yMm ∧
        m.worldFrameOffsetMm.z
          = m.gripperPositionWorldFrame.zMm - m.objectPositionWorldFrame.zMm) := by
  obtain ⟨o, apq, amv, rde, aep1, gmv, gwp, cwt, grb, aep2, lmv, ish⟩ := env
  simp only [executePick] at hok
  repeat' split at hok
  all_goals first
    | exact absurd hok (fun hbad => Except.noConfusion hbad)
    | (rw [Except.ok.injEq] at hok
       subst hok
       refine ⟨?_, ?_, ?_, ?_, ?_, ?_⟩
       · simp [pickResultToMap, pickStepNames]
       · simp [pickResultToMap]
       · simp only [pickResultToMap]
         unfold vecNorm
         ring_nf
       · simp only [pickResultToMap]
         unfold vecNorm
         ring_nf
       · intro r0 rest hd
         simp [pickResultToMap, redetectStep_of_redetected _ _ _ _ r0 rest hd, R3.sub]
       · simp only [pickResultToMap]
         try dsimp only
         simp only [verifyStep_object, verifyStep_world, verifyStep_gripper, liftStep_self]
         intro hnz
         exact worldCompareStep_sound_comp _ _ _ _ _ (by simp) hnz)

/-- When every fatal call succeeds and the hold query answers b, executePick
returns a result whose success and isHolding are b and whose stepsCompleted
is the full seven-name list. -/
theorem executePick_fatal_ok (env : PickEnv) (cfg : Config) (obj : DetectedObject)
    (cp : Pose) (grabbed b : Bool)
    (h1 : env.openGripper = .ok ())
    (h3 : ∀ p, env.approachMove p = .ok true)
    (h5 : env.armEndPosition1 = .ok cp)
    (h6 : ∀ p, env.graspMove p = .ok ())
    (h7 : env.grab = .ok grabbed)
    (h9 : env.isHolding = .ok b) :
    ∃ m, executePick env cfg obj = .ok m ∧ m.success = b ∧ m.isHolding = b ∧
      m.stepsCompleted = pickStepNames := by
  simp only [executePick, h1, h3, h5, h6, h7, h9, verifyStep_ok, liftStep_self]
  refine ⟨_, rfl, ?_, ?_, ?_⟩
  · simp [pickResultToMap]
  · simp [pickResultToMap]
  · simp [pickResultToMap, pickStepNames]

/-! Concrete evaluation lemmas for the fixtures. -/

theorem detectObjects_denvFailing (cfg : Config) :
    detectObjects denvFailing cfg = .error .segmentationFailed := by
  simp [detectObjects, denvFailing]

theorem detectObjects_denvZero (cfg : Config) :
    detectObjects denvZero cfg = .ok none := by
  simp [detectObjects, denvZero]

theorem computeCenter_single (p : R3) : computeCenter [p] = p := by
  simp [computeCenter, R3.zero]

theorem detectObjects_denvOne : detectObjects denvOne cfgW = .ok (some [obj123]) := by
  simp [detectObjects, denvOne, cfgW, computeCenter_single, goAppend, obj123]

theorem detectObjects_denvRedetect :
    detectObjects denvRedetect cfgC = .ok (some [objRedetected]) := by
  simp [detectObjects, denvRedetect, cfgC, computeCenter_single, goAppend, objRedetected]

theorem executePick_envFail (cfg : Config) (obj : DetectedObject) :
    executePick envFail cfg obj = .error .openGripperFailed := by
  simp [executePick, envFail, envA]

theorem executePick_envA : executePick envA cfgW objZero = .ok mA := by
  simp only [executePick, envA, cfgW, objZero]
  norm_num [redetectStep, detectObjects_denvFailing, worldCompareStep, liftStep, verifyStep,
    pickResultToMap, mA, R3.zero, R3.sub, pickStepNames, poseHigh]
  simp [vecNorm]

theorem executePick_envB : executePick envB cfgC obj123 = .ok mB := by
  have hd := detectObjects_denvRedetect
  simp only [cfgC] at hd
  simp only [executePick, envB, cfgC, obj123]
  norm_num [redetectStep, hd, objRedetected, worldCompareStep,
    liftStep, verifyStep, pickResultToMap, mB, R3.zero, R3.sub, pickStepNames, poseHigh,
    vecNorm]
  simp [vecNorm]
  norm_num

/-! Claim theorems. -/

/-- Claim C1 (code bug in the source): DoCommand's switch has no "move_to"
case, so every command map whose command field is "move_to" — with numeric
x, y, z, step_size parameters, exactly as the repository's own CLI sends —
falls through to the unknown-command error and leaves the session state
unchanged, instead of dispatching to the Convergence Controller
(handleMoveTo), which is implemented in move.go but unreachable from
DoCommand. -/
theorem doCommand_moveTo_unknown (st : SessionState) (env : DoCommandEnv) (cfg : Config)
    (x y z ss : ℝ) :
    doCommand st env cfg
        [("command", .str "move_to"), ("x", .num x), ("y", .num y), ("z", .num z),
          ("step_size", .num ss)]
      = (.err (.unknownCommand "move_to"), st) := by
  rfl

/-- Claim C7: when the fresh detection returns n objects and the requested
index is at least n, handlePick fails with the out-of-range error and
leaves lastResult unchanged (the pick orchestrator is never entered). -/
theorem handlePick_range_error (st : SessionState) (denv : DetectEnv) (penv : PickEnv)
    (cfg : Config) (objs : GoSlice DetectedObject) (idx : ℤ)
    (hd : detectObjects denv cfg = .ok objs)
    (hidx : (goLen objs : ℤ) ≤ idx) :
    (handlePick st denv penv cfg idx).1
        = .err (.objectIndexOutOfRange idx (goLen objs)) ∧
      ((handlePick st denv penv cfg idx).2).lastResult = st.lastResult := by
  unfold handlePick
  rw [hd]
  simp only
  rw [if_pos hidx]
  exact ⟨rfl, rfl⟩

/-- Witness for C7: picking index 5 out of a single detected object. -/
theorem handlePick_range_error_witness :
    (handlePick stPrev denvOne envA cfgW 5).1
        = .err (.objectIndexOutOfRange 5 (goLen (some [obj123]))) ∧
      ((handlePick stPrev denvOne envA cfgW 5).2).lastResult = stPrev.lastResult :=
  handlePick_range_error stPrev denvOne envA cfgW (some [obj123]) 5 detectObjects_denvOne
    (by norm_num [goLen])

/-- Claim C8: the pick handlers validate only the upper bound of the object
index.  For every negative index and non-empty detection set, the range
check passes and the slice access objects[objectIndex] is out of bounds:
both handlers reach the panic branch instead of returning a RangeError. -/
theorem negative_index_out_of_bounds (st st2 : SessionState) (denv : DetectEnv)
    (penv : PickEnv) (cfg : Config) (objs : GoSlice DetectedObject)
    (l : List DetectedObject) (idx : ℤ)
    (hneg : idx < 0)
    (hd : detectObjects denv cfg = .ok objs)
    (hn : 0 < goLen objs)
    (hld : st2.lastDetection = some l)
    (hl : l ≠ []) :
    (handlePick st denv penv cfg idx).1 = .panic ∧
      (handlePickDetected st2 penv cfg idx).1 = .panic := by
  constructor
  · unfold handlePick
    rw [hd]
    simp only
    rw [if_neg (by omega)]
    rw [goIndex_neg _ hneg]
  · unfold handlePickDetected
    rw [hld]
    simp only
    rw [if_neg (by omega)]
    rw [goIndex_neg _ hneg]

/-- Witness for C8: index -1 against a one-object detection panics in both
handlers. -/
theorem negative_index_out_of_bounds_witness :
    (handlePick stPrev denvOne envA cfgW (-1)).1 = .panic ∧
      (handlePickDetected stPrevDet envA cfgW (-1)).1 = .panic :=
  negative_index_out_of_bounds stPrev stPrevDet denvOne envA cfgW (some [obj123]) [obj123]
    (-1) (by norm_num) detectObjects_denvOne (by norm_num [goLen]) rfl (by simp)

/-- Claim C9: when the pick orchestrator fails fatally (returning a nil
result and an error), handlePick and handlePickDetected still assign the
nil result to lastResult, erasing the previously recorded pick result, and
a subsequent status call omits the last_result field. -/
theorem fatal_pick_nil_lastResult
    (st st2 : SessionState) (denv : DetectEnv) (penv : PickEnv) (cfg : Config)
    (objs : GoSlice DetectedObject) (l : List DetectedObject) (idx : ℤ)
    (obj obj2 : DetectedObject) (e e2 : PickError) (prev prev2 : PickResultMap)
    (hd : detectObjects denv cfg = .ok objs)
    (hi : goIndex (goList objs) idx = some obj)
    (hp : executePick penv cfg obj = .error e)
    (hprev : st.lastResult = some prev)
    (hld : st2.lastDetection = some l)
    (hi2 : goIndex l idx = some obj2)
    (hp2 : executePick penv cfg obj2 = .error e2)
    (hprev2 : st2.lastResult = some prev2) :
    ((handlePick st denv penv cfg idx).1 = .err (.pickFailed e) ∧
      ((handlePick st denv penv cfg idx).2).lastResult = none ∧
      (handleStatus (handlePick st denv penv cfg idx).2).lastResult = none) ∧
    ((handlePickDetected st2 penv cfg idx).1 = .err (.pickFailed e2) ∧
      ((handlePickDetected st2 penv cfg idx).2).lastResult = none ∧
      (handleStatus (handlePickDetected st2 penv cfg idx).2).lastResult = none) := by
  obtain ⟨hge, hlt⟩ := goIndex_some_bounds hi
  obtain ⟨hge2, hlt2⟩ := goIndex_some_bounds hi2
  constructor
  · unfold handlePick
    rw [hd]
    simp only
    rw [if_neg (by rw [goLen_eq_goList_length]; omega)]
    simp [hi, hp, handleStatus]
  · unfold handlePickDetected
    rw [hld]
    simp only
    rw [if_neg (by omega)]
    simp [hi2, hp2, handleStatus]

/-- Witness for C9: a pick whose open-gripper call fails erases the
previously stored result in both handlers. -/
theorem fatal_pick_nil_lastResult_witness :
    ((handlePick stPrev denvOne envFail cfgW 0).1 = .err (.pickFailed .openGripperFailed) ∧
      ((handlePick stPrev denvOne envFail cfgW 0).2).lastResult = none ∧
      (handleStatus (handlePick stPrev denvOne envFail cfgW 0).2).lastResult = none) ∧
    ((handlePickDetected stPrevDet envFail cfgW 0).1
        = .err (.pickFailed .openGripperFailed) ∧
      ((handlePickDetected stPrevDet envFail cfgW 0).2).lastResult = none ∧
      (handleStatus (handlePickDetected stPrevDet envFail cfgW 0).2).lastResult = none) :=
  fatal_pick_nil_lastResult stPrev stPrevDet denvOne envFail cfgW (some [obj123]) [obj123]
    0 obj123 obj123 .openGripperFailed .openGripperFailed mA mA
    detectObjects_denvOne (by simp [goIndex, goList]) (executePick_envFail cfgW obj123)
    rfl rfl (by simp [goIndex]) (executePick_envFail cfgW obj123) rfl

/-- Claim C10: a detect that succeeds with zero surviving clusters stores
the nil slice as lastDetection (detectObjects returns nil for the empty
outcome), so a subsequent pick_detected fails with the
no-previous-detection error and status omits the detected_objects count:
an empty successful detection is indistinguishable from never having
detected. -/
theorem empty_detection_nil (st : SessionState) (denv : DetectEnv) (penv : PickEnv)
    (cfg : Config) (objs : GoSlice DetectedObject) (idx : ℤ)
    (hd : detectObjects denv cfg = .ok objs)
    (hlen : goLen objs = 0) :
    objs = none ∧
    handleDetect st denv cfg
        = (.ok ⟨[], 0⟩, { st with lastDetection := none, currentStatus := "idle" }) ∧
    (handlePickDetected { st with lastDetection := none, currentStatus := "idle" } penv cfg
        idx).1 = .err .noPreviousDetection ∧
    (handleStatus { st with lastDetection := none, currentStatus := "idle" }).detectedObjects
        = none := by
  have hnone : objs = none := by
    rcases objs with _ | l
    · rfl
    · exfalso
      rcases l with _ | ⟨a, t⟩
      · exact detectObjects_ok_not_some_nil denv cfg hd
      · simp [goLen] at hlen
  subst hnone
  refine ⟨rfl, ?_, ?_, ?_⟩
  · unfold handleDetect
    rw [hd]
    simp [goList, goLen]
  · rfl
  · rfl

/-- Witness for C10: a detect run with zero clusters, followed by
pick_detected and status. -/
theorem empty_detection_nil_witness :
    (none : GoSlice DetectedObject) = none ∧
    handleDetect initialState denvZero cfgW
        = (.ok ⟨[], 0⟩,
            { initialState with lastDetection := none, currentStatus := "idle" }) ∧
    (handlePickDetected
        { initialState with lastDetection := none, currentStatus := "idle" } envA cfgW
        0).1 = .err .noPreviousDetection ∧
    (handleStatus
        { initialState with lastDetection := none, currentStatus := "idle" }).detectedObjects
      = none :=
  empty_detection_nil initialState denvZero envA cfgW none 0
    (detectObjects_denvZero cfgW) rfl

/-- Counterexample to C2 as stated: a pick in which every fatal step
succeeds and the hold check returns true yields success and is_holding,
but steps_completed has seven entries, not nine — it cannot contain nine
step names. -/
theorem pick_success_not_nine_steps :
    ∃ m, executePick envA cfgW objZero = .ok m ∧ m.success = true ∧ m.isHolding = true ∧
      m.stepsCompleted.length = 7 ∧ m.stepsCompleted.length ≠ 9 :=
  ⟨mA, executePick_envA, by simp [mA], by simp [mA], by simp [mA, pickStepNames],
    by simp [mA, pickStepNames]⟩

/-- Claim C2 (amended): for every pick invocation in which every fatal step
succeeds and the final hold check returns true, the result has
success = true, is_holding = true, and steps_completed containing all
SEVEN recorded step names in fixed order: open_gripper, approach,
re_detect, grasp_position, grab, lift, verify. -/
theorem pick_success_steps_completed (env : PickEnv) (cfg : Config) (obj : DetectedObject)
    (cp : Pose) (grabbed : Bool)
    (h1 : env.openGripper = .ok ())
    (h3 : ∀ p, env.approachMove p = .ok true)
    (h5 : env.armEndPosition1 = .ok cp)
    (h6 : ∀ p, env.graspMove p = .ok ())
    (h7 : env.grab = .ok grabbed)
    (h9 : env.isHolding = .ok true) :
    ∃ m, executePick env cfg obj = .ok m ∧ m.success = true ∧ m.isHolding = true ∧
      m.stepsCompleted = pickStepNames :=
  executePick_fatal_ok env cfg obj cp grabbed true h1 h3 h5 h6 h7 h9

/-- Witness for the amended C2 at the all-success fixture. -/
theorem pick_success_steps_completed_witness :
    ∃ m, executePick envA cfgW objZero = .ok m ∧ m.success = true ∧ m.isHolding = true ∧
      m.stepsCompleted = pickStepNames :=
  pick_success_steps_completed envA cfgW objZero poseHigh true rfl (fun _ => rfl) rfl
    (fun _ => rfl) rfl rfl

/-- Counterexample to C3 as stated: in a run whose re-detection call fails,
the advisory step still appends "re_detect" to stepsCompleted. -/
theorem redetect_failure_still_appends :
    detectObjects envA.redetectEnv cfgW = .error .segmentationFailed ∧
      ∃ m, executePick envA cfgW objZero = .ok m ∧ "re_detect" ∈ m.stepsCompleted :=
  ⟨detectObjects_denvFailing cfgW, mA, executePick_envA, by simp [mA, pickStepNames]⟩

/-- Claim C3 (amended): fatal steps append their name only on success — a
fatal failure aborts with no result at all — while the advisory steps
(re_detect, lift, verify) append their names once reached even when their
external calls fail: consequently every successful pick reports exactly
the seven names in fixed order. -/
theorem successful_pick_steps_exact (env : PickEnv) (cfg : Config) (obj : DetectedObject)
    (m : PickResultMap) (hok : executePick env cfg obj = .ok m) :
    m.stepsCompleted = pickStepNames :=
  (executePick_ok_inv env cfg obj m hok).1

/-- Witness for the amended C3 at the fixture whose re-detection fails. -/
theorem successful_pick_steps_exact_witness :
    executePick envA cfgW objZero = .ok mA ∧ mA.stepsCompleted = pickStepNames :=
  ⟨executePick_envA, successful_pick_steps_exact envA cfgW objZero mA executePick_envA⟩

/-- Counterexample to C6 as stated: a run in which both world poses are
obtained — the gripper world pose query succeeds at (1,2,2) and the object
world position is obtained directly from a world-frame detection at the
origin — yet the reported world_frame_offset is the zero vector, not
gripperWorld minus objectWorld. -/
theorem world_offset_zero_object :
    executePick envA cfgW objZero = .ok mA ∧
      envA.gripperWorldPose = .ok ⟨⟨1, 2, 2⟩, defaultCameraOrientation⟩ ∧
      mA.objectPositionWorldFrame.xMm = 0 ∧ mA.objectPositionWorldFrame.yMm = 0 ∧
      mA.objectPositionWorldFrame.zMm = 0 ∧
      mA.gripperPositionWorldFrame.xMm = 1 ∧ mA.worldFrameOffsetMm.x = 0 ∧
      mA.worldFrameOffsetMm.x
        ≠ mA.gripperPositionWorldFrame.xMm - mA.objectPositionWorldFrame.xMm :=
  ⟨executePick_envA, rfl, by simp [mA], by simp [mA], by simp [mA], by simp [mA],
    by simp [mA], by norm_num [mA]⟩

/-- Claim C6 (amended): whenever re-detection succeeds with at least one
object, approachOffset equals redetected minus original component-wise;
whenever both world poses are obtained AND the recorded object world
position is not the zero vector, worldFrameOffset equals gripperWorld
minus objectWorld component-wise; and each reported total equals
sqrt(x² + y² + z²) of the corresponding vector. -/
theorem offsets_componentwise (env : PickEnv) (cfg : Config) (obj : DetectedObject)
    (m : PickResultMap) (hok : executePick env cfg obj = .ok m) :
    (∀ r0 rest, detectObjects env.redetectEnv cfg = .ok (some (r0 :: rest)) →
      m.approachOffsetMm.x = r0.center.x - obj.center.x ∧
      m.approachOffsetMm.y = r0.center.y - obj.center.y ∧
      m.approachOffsetMm.z = r0.center.z - obj.center.z) ∧
    ((m.objectPositionWorldFrame.xMm ≠ 0 ∨ m.objectPositionWorldFrame.yMm ≠ 0 ∨
        m.objectPositionWorldFrame.zMm ≠ 0) →
      m.worldFrameOffsetMm.x
          = m.gripperPositionWorldFrame.xMm - m.objectPositionWorldFrame.xMm ∧
        m.worldFrameOffsetMm.y
          = m.gripperPositionWorldFrame.yMm - m.objectPositionWorldFrame.yMm ∧
        m.worldFrameOffsetMm.z
          = m.gripperPositionWorldFrame.zMm - m.objectPositionWorldFrame.zMm) ∧
    m.approachOffsetMm.total = Real.sqrt (m.approachOffsetMm.x ^ 2
      + m.approachOffsetMm.y ^ 2 + m.approachOffsetMm.z ^ 2) ∧
    m.worldFrameOffsetMm.total = Real.sqrt (m.worldFrameOffsetMm.x ^ 2
      + m.worldFrameOffsetMm.y ^ 2 + m.worldFrameOffsetMm.z ^ 2) := by
  obtain ⟨_, _, ht1, ht2, happ, hworld⟩ := executePick_ok_inv env cfg obj m hok
  exact ⟨happ, hworld, ht1, ht2⟩

/-- Witness for the amended C6 at the camera-frame fixture with a
successful re-detection and a non-zero object world position. -/
theorem offsets_componentwise_witness :
    executePick envB cfgC obj123 = .ok mB ∧
      (mB.approachOffsetMm.x = objRedetected.center.x - obj123.center.x ∧
        mB.approachOffsetMm.y = objRedetected.center.y - obj123.center.y ∧
        mB.approachOffsetMm.z = objRedetected.center.z - obj123.center.z) ∧
      (mB.worldFrameOffsetMm.x
          = mB.gripperPositionWorldFrame.xMm - mB.objectPositionWorldFrame.xMm ∧
        mB.worldFrameOffsetMm.y
          = mB.gripperPositionWorldFrame.yMm - mB.objectPositionWorldFrame.yMm ∧
        mB.worldFrameOffsetMm.z
          = mB.gripperPositionWorldFrame.zMm - mB.objectPositionWorldFrame.zMm) :=
  ⟨executePick_envB,
    (offsets_componentwise envB cfgC obj123 mB executePick_envB).1 objRedetected []
      detectObjects_denvRedetect,
    (offsets_componentwise envB cfgC obj123 mB executePick_envB).2.1
      (Or.inl (by norm_num [mB]))⟩

/-! Helper lemmas: the convergence loop. -/

theorem countingEnv_getPose (f : ℕ → Pose) (k : ℕ) :
    (countingEnv f).getPose k = .ok (f k) := rfl

theorem countingEnv_move (f : ℕ → Pose) (k : ℕ) (p : Pose) :
    (countingEnv f).move k p = .ok (true, k + 1) := rfl

theorem perfectEnv_getPose (c : R3) :
    perfectEnv.getPose c = .ok ⟨c, defaultCameraOrientation⟩ := rfl

theorem perfectEnv_move (c : R3) (p : Pose) :
    perfectEnv.move c p = .ok (true, p.point) := rfl

/-- Against a world in which every pose query and every move succeeds but
the reported distance to target always exceeds 1mm, the loop consumes all
its fuel, issuing exactly one move per iteration, and ends exhausted. -/
theorem moveToAux_counting (f : ℕ → Pose) (t : R3) (S : ℝ)
    (hfar : ∀ k, 1 < vecNorm (R3.sub t (f k).point)) :
    ∀ (fuel steps k : ℕ),
      moveToAux (countingEnv f) t S fuel steps k = (.error .exhausted, k + fuel) := by
  intro fuel
  induction fuel with
  | zero =>
    intro steps k
    simp [moveToAux]
  | succ n ih =>
    intro steps k
    simp only [moveToAux, countingEnv_getPose, countingEnv_move]
    rw [if_neg (not_le.mpr (hfar k))]
    rw [ih (steps + 1) (k + 1)]
    have h : k + 1 + n = k + (n + 1) := by omega
    rw [h]

/-- Against the exact-landing world, the loop from position c with
m = ⌈(d - 1) / S⌉₊ remaining productive iterations (d the current distance
to target) succeeds in exactly steps + m iterations, provided m < fuel,
ending within 1mm of the target. -/
theorem moveToAux_perfect (t : R3) (S : ℝ) (hS : 0 < S) :
    ∀ (fuel steps : ℕ) (c : R3),
      ⌈(vecNorm (R3.sub t c) - 1) / S⌉₊ < fuel →
      ∃ c2, moveToAux perfectEnv t S fuel steps c
            = (.ok ⟨true, steps + ⌈(vecNorm (R3.sub t c) - 1) / S⌉₊, c2, t⟩, c2)
          ∧ vecNorm (R3.sub t c2) ≤ 1 := by
  intro fuel
  induction fuel with
  | zero =>
    intro steps c h
    exact absurd h (Nat.not_lt_zero _)
  | succ n ih =>
    intro steps c hcap
    by_cases hd1 : vecNorm (R3.sub t c) ≤ 1
    · have hm : ⌈(vecNorm (R3.sub t c) - 1) / S⌉₊ = 0 := by
        apply Nat.ceil_eq_zero.mpr
        apply div_nonpos_of_nonpos_of_nonneg <;> linarith
      refine ⟨c, ?_, hd1⟩
      simp only [moveToAux, perfectEnv_getPose, perfectEnv_move]
      rw [if_pos hd1, hm]
      norm_num
    · have hd1' : 1 < vecNorm (R3.sub t c) := not_le.mp hd1
      have hm1 : 1 ≤ ⌈(vecNorm (R3.sub t c) - 1) / S⌉₊ :=
        Nat.one_le_ceil_iff.mpr (div_pos (by linarith) hS)
      have hz : ⌈(vecNorm (R3.sub t t) - 1) / S⌉₊ = 0 := by
        rw [vecNorm_sub_self]
        apply Nat.ceil_eq_zero.mpr
        apply div_nonpos_of_nonpos_of_nonneg <;> linarith
      by_cases hdS : vecNorm (R3.sub t c) ≤ S
      · have hm : ⌈(vecNorm (R3.sub t c) - 1) / S⌉₊ = 1 := by
          refine le_antisymm ?_ hm1
          rw [Nat.ceil_le]
          push_cast
          rw [div_le_one hS]
          linarith
        obtain ⟨c2, hrec, hc2⟩ := ih (steps + 1) t (by rw [hz]; omega)
        refine ⟨c2, ?_, hc2⟩
        simp only [moveToAux, perfectEnv_getPose, perfectEnv_move]
        rw [if_neg hd1, if_pos hdS]
        rw [hrec, hz, hm]
      · have hSd : S < vecNorm (R3.sub t c) := not_le.mp hdS
        have hstep : vecNorm (R3.sub t
            ⟨c.x + (R3.sub t c).x / vecNorm (R3.sub t c) * S,
              c.y + (R3.sub t c).y / vecNorm (R3.sub t c) * S,
              c.z + (R3.sub t c).z / vecNorm (R3.sub t c) * S⟩)
            = vecNorm (R3.sub t c) - S := vecNorm_after_step t c S hS hSd
        have hrecm : ⌈(vecNorm (R3.sub t c) - 1) / S⌉₊
            = ⌈(vecNorm (R3.sub t c) - S - 1) / S⌉₊ + 1 := by
          by_cases hds1 : vecNorm (R3.sub t c) - S ≤ 1
          · have h0 : ⌈(vecNorm (R3.sub t c) - S - 1) / S⌉₊ = 0 := by
              apply Nat.ceil_eq_zero.mpr
              apply div_nonpos_of_nonpos_of_nonneg <;> linarith
            have h1 : ⌈(vecNorm (R3.sub t c) - 1) / S⌉₊ = 1 := by
              refine le_antisymm ?_ hm1
              rw [Nat.ceil_le]
              push_cast
              rw [div_le_one hS]
              linarith
            rw [h0, h1]
          · have h0 : (0:ℝ) ≤ (vecNorm (R3.sub t c) - S - 1) / S :=
              div_nonneg (by linarith) (le_of_lt hS)
            have hsplit : (vecNorm (R3.sub t c) - 1) / S
                = (vecNorm (R3.sub t c) - S - 1) / S + 1 := by
              field_simp
              ring
            rw [hsplit, Nat.ceil_add_one h0]
        obtain ⟨c2, hrec, hc2⟩ := ih (steps + 1)
          ⟨c.x + (R3.sub t c).x / vecNorm (R3.sub t c) * S,
            c.y + (R3.sub t c).y / vecNorm (R3.sub t c) * S,
            c.z + (R3.sub t c).z / vecNorm (R3.sub t c) * S⟩
          (by rw [hstep]; omega)
        refine ⟨c2, ?_, hc2⟩
        simp only [moveToAux, perfectEnv_getPose, perfectEnv_move]
        rw [if_neg hd1, if_neg hdS]
        rw [hrec, hstep, hrecm]
        have harith : steps + 1 + ⌈(vecNorm (R3.sub t c) - S - 1) / S⌉₊
            = steps + (⌈(vecNorm (R3.sub t c) - S - 1) / S⌉₊ + 1) := by omega
        rw [harith]

/-- Claim C5: against any run in which every pose query and move succeeds
but the distance to target never drops to 1mm or below, the convergence
loop performs exactly the iteration cap of 200 iterations, each issuing
one move (the counting state rises by exactly 200), and then fails with
the exhausted error instead of returning a result. -/
theorem moveTo_exhausts_at_cap (f : ℕ → Pose) (t : R3) (S : ℝ) (k0 : ℕ)
    (hfar : ∀ k, 1 < vecNorm (R3.sub t (f k).point)) :
    handleMoveTo (countingEnv f) t S k0 = (.error .exhausted, k0 + 200) := by
  have h := moveToAux_counting f t S hfar maxSteps 0 k0
  simpa [handleMoveTo, maxSteps] using h

/-- Witness for C5: gripper stuck at (5,0,0), target (100,0,0). -/
theorem moveTo_exhausts_at_cap_witness :
    handleMoveTo (countingEnv stuckPose) ⟨100, 0, 0⟩ 20 0 = (.error .exhausted, 0 + 200) := by
  apply moveTo_exhausts_at_cap
  intro k
  have hsub : R3.sub ⟨100, 0, 0⟩ (stuckPose k).point = ⟨95, 0, 0⟩ := by
    norm_num [R3.sub, stuckPose]
  rw [hsub, vecNorm_axis 95 (by norm_num)]
  norm_num

/-- Counterexample to C4 as stated: from distance 3.5mm with step size 3mm
and an exactly-landing planner, the controller succeeds after 1 iteration,
while ceil(D / S) = 2: the claimed iteration count is wrong (the loop stops
as soon as the remaining distance is within the 1mm tolerance). -/
theorem moveTo_steps_not_ceil_div :
    (0:ℝ) < 3 ∧
    vecNorm (R3.sub ⟨7/2, 0, 0⟩ R3.zero) = 7/2 ∧
    (∃ c2, handleMoveTo perfectEnv ⟨7/2, 0, 0⟩ 3 R3.zero
        = (.ok ⟨true, 1, c2, ⟨7/2, 0, 0⟩⟩, c2)) ∧
    ⌈vecNorm (R3.sub ⟨7/2, 0, 0⟩ R3.zero) / 3⌉₊ = 2 ∧ (1 : ℕ) ≠ 2 := by
  have hsub : R3.sub ⟨7/2, 0, 0⟩ R3.zero = ⟨7/2, 0, 0⟩ := by
    norm_num [R3.sub, R3.zero]
  have hv : vecNorm (R3.sub ⟨7/2, 0, 0⟩ R3.zero) = 7/2 := by
    rw [hsub]
    exact vecNorm_axis _ (by norm_num)
  have hm : ⌈(vecNorm (R3.sub ⟨7/2, 0, 0⟩ R3.zero) - 1) / 3⌉₊ = 1 := by
    rw [hv]
    rw [Nat.ceil_eq_iff one_ne_zero]
    norm_num
  obtain ⟨c2, h1, h2⟩ := moveToAux_perfect ⟨7/2, 0, 0⟩ 3 (by norm_num) maxSteps 0 R3.zero
    (by rw [hm]; norm_num [maxSteps])
  refine ⟨by norm_num, hv, ⟨c2, ?_⟩, ?_, by norm_num⟩
  · rw [hm] at h1
    simpa [handleMoveTo] using h1
  · rw [hv]
    rw [Nat.ceil_eq_iff two_ne_zero]
    norm_num

/-- Claim C4 (amended): for every target, step size S > 0 and start with
initial distance D > 1mm, if every planner move lands exactly on the
requested waypoint, the controller succeeds and the iteration count it
returns equals ⌈(D - 1mm) / S⌉ — the least number of moves after which the
remaining distance is within the 1mm tolerance — provided that count is
strictly below the 200-iteration cap; the final observed position is
within 1mm of the target. -/
theorem moveTo_converges_iterations (t c0 : R3) (S : ℝ) (hS : 0 < S)
    (hD : 1 < vecNorm (R3.sub t c0))
    (hcap : ⌈(vecNorm (R3.sub t c0) - 1) / S⌉₊ < maxSteps) :
    ∃ c2, handleMoveTo perfectEnv t S c0
        = (.ok ⟨true, ⌈(vecNorm (R3.sub t c0) - 1) / S⌉₊, c2, t⟩, c2)
      ∧ vecNorm (R3.sub t c2) ≤ 1 := by
  obtain ⟨c2, h1, h2⟩ := moveToAux_perfect t S hS maxSteps 0 c0 hcap
  exact ⟨c2, by simpa [handleMoveTo] using h1, h2⟩

/-- Witness for the amended C4: distance 10mm, step 5mm, hence 2
iterations. -/
theorem moveTo_converges_iterations_witness :
    (0:ℝ) < 5 ∧ 1 < vecNorm (R3.sub ⟨10, 0, 0⟩ R3.zero) ∧
    ⌈(vecNorm (R3.sub ⟨10, 0, 0⟩ R3.zero) - 1) / 5⌉₊ = 2 ∧
    ∃ c2, handleMoveTo perfectEnv ⟨10, 0, 0⟩ 5 R3.zero
        = (.ok ⟨true, ⌈(vecNorm (R3.sub ⟨10, 0, 0⟩ R3.zero) - 1) / 5⌉₊, c2, ⟨10, 0, 0⟩⟩, c2)
      ∧ vecNorm (R3.sub ⟨10, 0, 0⟩ c2) ≤ 1 := by
  have hsub : R3.sub ⟨10, 0, 0⟩ R3.zero = ⟨10, 0, 0⟩ := by
    norm_num [R3.sub, R3.zero]
  have hv : vecNorm (R3.sub ⟨10, 0, 0⟩ R3.zero) = 10 := by
    rw [hsub]
    exact vecNorm_axis _ (by norm_num)
  have hm : ⌈(vecNorm (R3.sub ⟨10, 0, 0⟩ R3.zero) - 1) / 5⌉₊ = 2 := by
    rw [hv]
    rw [Nat.ceil_eq_iff two_ne_zero]
    norm_num
  refine ⟨by norm_num, by rw [hv]; norm_num, hm, ?_⟩
  exact moveTo_converges_iterations ⟨10, 0, 0⟩ R3.zero 5 (by norm_num)
    (by rw [hv]; norm_num) (by rw [hm]; norm_num [maxSteps])

end HandEye
